import Mathlib

/-!
# Verification of `anguis` resource allocation (`src/anguis/resources.py`)

Shallow embedding of `SnakemakeResourcesManager` and proofs about its
behaviour.  Python dictionaries are modelled as insertion-ordered
association lists (`Dict`), `collections.defaultdict(int)`-of-`defaultdict`
reads are modelled with their insert-on-missing semantics (`ddRead` /
`ddWrite`), and Python values appearing in the resource configuration are
modelled by `PyVal` (`None`, `int`, `str`; float-valued configuration
entries are not modelled — none of the verified properties involves one).
Python float arithmetic (`1.5 ** (attempt - 1)` etc.) is modelled by exact
rational arithmetic, which agrees with IEEE doubles on all values appearing
in the statements below.  Exceptions are modelled by `Except PyErr`;
`print` diagnostics by a `List LogMsg` output.
-/

namespace Anguis

/-- A Python value as it can appear in the resource-configuration
dictionaries: `None`, an `int`, or a `str`. -/
inductive PyVal where
  | vNone : PyVal
  | vInt (n : ℤ) : PyVal
  | vStr (s : String) : PyVal
  deriving DecidableEq, Repr

/-- The Python exception classes raised by the code under study. -/
inductive PyErr where
  | typeError : PyErr
  | keyError : PyErr
  | valueError : PyErr
  | nameError : PyErr
  | indexError : PyErr
  | attributeError : PyErr
  deriving DecidableEq, Repr

instance {ε α : Type} [DecidableEq ε] [DecidableEq α] : DecidableEq (Except ε α) := fun a b =>
  match a, b with
  | .error e, .error f =>
      if h : e = f then .isTrue (by rw [h]) else .isFalse (by simp [h])
  | .error _, .ok _ => .isFalse (by simp)
  | .ok _, .error _ => .isFalse (by simp)
  | .ok x, .ok y =>
      if h : x = y then .isTrue (by rw [h]) else .isFalse (by simp [h])

/-- The `print` diagnostics emitted by `resources.py`, as abstract events
(line numbers refer to the source file). -/
inductive LogMsg where
  /-- line 59: `Could not find {resource} specification for rule {rule}. Using default ({value})` -/
  | usingDefault (rule resource : String) (value : PyVal) : LogMsg
  /-- line 130: `Invalid runtime format for rule <{rule}>: <{runtime}>` -/
  | invalidRuntime (rule runtime : String) : LogMsg
  /-- line 55: `Value {value} for resource {resource} is neither a number nor a preset.` -/
  | invalidPreset (resource : String) (value : String) : LogMsg
  deriving DecidableEq, Repr

/-- An insertion-ordered string-keyed dictionary, modelling a Python `dict`. -/
abbrev Dict (α : Type) := List (String × α)

/-- `d[k]` as an `Option` (`none` models a `KeyError`). -/
def dictFind? {α : Type} (d : Dict α) (k : String) : Option α :=
  match d with
  | [] => none
  | (k', v) :: rest => if k' = k then some v else dictFind? rest k

/-- `d[k] = v`: update in place if the key exists, else append
(Python dicts preserve insertion order). -/
def dictInsert {α : Type} (d : Dict α) (k : String) (v : α) : Dict α :=
  match d with
  | [] => [(k, v)]
  | (k', v') :: rest =>
      if k' = k then (k, v) :: rest else (k', v') :: dictInsert rest k v

/-- `k in d`. -/
def dictContains {α : Type} (d : Dict α) (k : String) : Bool :=
  (dictFind? d k).isSome

/-- The type of `self.resources`:
`collections.defaultdict(lambda: collections.defaultdict(int))`. -/
abbrev DD := Dict (Dict PyVal)

/-- Reading `d[rule][res]` on the nested defaultdict: a missing outer or
inner key is created on access and the read yields the `int` default `0`. -/
def ddRead (d : DD) (rule res : String) : PyVal × DD :=
  match dictFind? d rule with
  | some inner =>
      match dictFind? inner res with
      | some v => (v, d)
      | none => (PyVal.vInt 0, dictInsert d rule (dictInsert inner res (PyVal.vInt 0)))
  | none => (PyVal.vInt 0, dictInsert d rule [(res, PyVal.vInt 0)])

/-- Writing `d[rule][res] = v` on the nested defaultdict: `d[rule]` is
created (empty) if missing, then the inner assignment is performed. -/
def ddWrite (d : DD) (rule res : String) (v : PyVal) : DD :=
  dictInsert d rule (dictInsert ((dictFind? d rule).getD []) res v)

/-- The value of an all-digit character list. -/
def digitsValL (cs : List Char) : ℕ :=
  cs.foldl (fun a c => a * 10 + (c.toNat - 48)) 0

/-- The value of a nonempty all-digit string. -/
def digitsVal (s : String) : ℕ :=
  digitsValL s.data

/-- Python's `str.isdigit` (restricted to ASCII digits; the configuration
strings under study contain no other Unicode digit characters). -/
def pyIsdigit (s : String) : Bool :=
  !s.data.isEmpty && s.data.all Char.isDigit

/-- A nonempty all-digit character list. -/
def isDigitsL (cs : List Char) : Bool :=
  !cs.isEmpty && cs.all Char.isDigit

/-- Python's `int(s)` on a string, over the character list: optional sign
followed by digits (whitespace padding and `_` separators are not
modelled — no such strings occur in the statements below).  `none` models
a `ValueError`. -/
def pyIntL? (cs : List Char) : Option ℤ :=
  match cs with
  | '-' :: rest => if isDigitsL rest then some (-(digitsValL rest : ℤ)) else none
  | '+' :: rest => if isDigitsL rest then some (digitsValL rest) else none
  | _ => if isDigitsL cs then some (digitsValL cs) else none

/-- Python's `int(s)` on a string. -/
def pyInt? (s : String) : Option ℤ :=
  pyIntL? s.data

/-- Splitting a character list at every separator character, keeping empty
fields (the semantics of both `String.split` and `re.split` with a
single-character alternation). -/
def splitChars (p : Char → Bool) : List Char → List (List Char)
  | [] => [[]]
  | c :: cs =>
      if p c then [] :: splitChars p cs
      else
        match splitChars p cs with
        | [] => [[c]]
        | h :: t => (c :: h) :: t

/-- Body of Python's `float(s)` for plain decimal literals
(`"4"`, `"4."`, `".5"`, `"2.75"`); exponent and special forms are not
modelled — none occurs in the statements below. -/
def pyFloatBodyL? (cs : List Char) : Option ℚ :=
  match splitChars (· = '.') cs with
  | [a] => if isDigitsL a then some (digitsValL a : ℚ) else none
  | [a, b] =>
      if a.isEmpty && b.isEmpty then none
      else if (a.all Char.isDigit) && (b.all Char.isDigit) then
        some ((digitsValL a : ℚ) + (digitsValL b : ℚ) / (10 ^ b.length : ℚ))
      else none
  | _ => none

/-- Python's `float(s)`; `none` models a `ValueError`. -/
def pyFloat? (s : String) : Option ℚ :=
  match s.data with
  | '-' :: rest => (pyFloatBodyL? rest).map Neg.neg
  | '+' :: rest => pyFloatBodyL? rest
  | cs => pyFloatBodyL? cs

/-- Python's `int(x)` on a float: truncation toward zero. -/
def pyTrunc (q : ℚ) : ℤ :=
  if q < 0 then ⌈q⌉ else ⌊q⌋

/-- Decimal digits of the fractional part `0 ≤ q < 1`, with fuel
(the rationals reaching this in the development are dyadic, so the
expansion is finite and well within the fuel). -/
def fracDigits : ℚ → ℕ → String
  | _, 0 => ""
  | q, n + 1 =>
      if q = 0 then ""
      else
        let d : ℤ := ⌊q * 10⌋
        toString d ++ fracDigits (q * 10 - (d : ℚ)) n

/-- Decimal rendering of a nonnegative rational, `".0"` appended when
integral. -/
def ratDecimalStrNN (q : ℚ) : String :=
  let ip : ℤ := ⌊q⌋
  let fp := q - (ip : ℚ)
  if fp = 0 then toString ip ++ ".0"
  else toString ip ++ "." ++ fracDigits fp 30

/-- Python's `f-string` rendering of a float (`repr(float)`), modelled for
values whose shortest round-trip representation is the plain finite decimal
expansion (true of every value appearing in the statements below, e.g.
`6.0 ↦ "6.0"`). -/
def pyFloatStr (q : ℚ) : String :=
  if q < 0 then "-" ++ ratDecimalStrNN (-q) else ratDecimalStrNN q

/-- `re.split(':|-', s)`: split on every `':'` or `'-'`, keeping empty
fields. -/
def splitRT (s : String) : List (List Char) :=
  splitChars (fun c => c = ':' || c = '-') s.data

/-- Parsing of the `D-HH:MM:SS` runtime string (lines 127–128): the
generator unpacking `d, h, m, s = (int(f) for f in re.split(':|-', runtime))`
succeeds exactly when the split yields four fields each accepted by `int`,
and any failure (wrong field count or unparseable field) raises the
`ValueError` caught at line 129; the result is
`((((d * 24) + h) * 60) + m) * 60 + s`. -/
def parseRuntime (s : String) : Option ℤ :=
  match (splitRT s).map pyIntL? with
  | [some d, some h, some m, some sec] =>
      some (((((d * 24) + h) * 60) + m) * 60 + sec)
  | _ => none

/-- The state of a `SnakemakeResourcesManager` instance (lines 18–39).
`presets` is the `self.presets` attribute; `resources` is the
`self.resources` nested defaultdict.  The `override` constructor argument
is never stored by `__init__`, so it has no field. -/
structure SnakemakeResourcesManager where
  default_str : String
  threads_str : String
  memory_str : String
  runtime_str : String
  mem_attempt_multiplier : ℚ
  runtime_attempt_multiplier : ℚ
  defined_resources : Dict (Dict PyVal)
  presets : Option (Dict (Dict PyVal))
  resources : DD
  deriving DecidableEq, Repr

namespace SnakemakeResourcesManager

/-- The class attribute `default_resources` (lines 14–16). -/
def default_resources_threads : ℤ := 1

/-- The class attribute `default_resources['mem_mb']`. -/
def default_resources_mem_mb : ℤ := 2000

/-- The class attribute `default_resources['runtime_s']`. -/
def default_resources_runtime_s : ℤ := 3600

/-- `__init__` (lines 18–39).  `self.defined_resources = resources` binds
the attribute to the caller's dictionary object (aliasing), so after
construction the caller's mapping IS the `defined_resources` field: the
injection of the `default` entry at lines 35–38 mutates the caller's
object in place.  `self.presets` is set to `None` at line 30 regardless of
the `presets` argument, and the `override` argument is never stored.  The
injected default entry is built with successive key assignments so that
colliding custom key strings overwrite as the Python dict display would. -/
def init (resources : Option (Dict (Dict PyVal)))
    (presets : Option (Dict (Dict PyVal)))
    (override : Option (Dict (Dict PyVal)))
    (mem_attempt_multiplier runtime_attempt_multiplier : ℚ)
    (default_str threads_str memory_str runtime_str : String) :
    SnakemakeResourcesManager :=
  let dr0 := resources.getD []
  let dr :=
    if dictContains dr0 default_str then dr0
    else
      dictInsert dr0 default_str
        (dictInsert
          (dictInsert
            (dictInsert [] threads_str (PyVal.vInt default_resources_threads))
            memory_str (PyVal.vInt default_resources_mem_mb))
          runtime_str (PyVal.vInt default_resources_runtime_s))
  { default_str := default_str
    threads_str := threads_str
    memory_str := memory_str
    runtime_str := runtime_str
    mem_attempt_multiplier := mem_attempt_multiplier
    runtime_attempt_multiplier := runtime_attempt_multiplier
    defined_resources := dr
    presets := none
    resources := [] }

/-- `self.resources[rule][resource] = value` (line 60). -/
def store (m : SnakemakeResourcesManager) (rule resource : String) (v : PyVal) :
    SnakemakeResourcesManager :=
  { m with resources := ddWrite m.resources rule resource v }

/-- The `except KeyError` handler of `get_resource_value` (lines 57–59):
fall back to `self.defined_resources[self._default_str][resource]` with the
line 59 diagnostic; a `KeyError` raised inside the handler itself
propagates. -/
def fallbackCore (dstr : String) (dr : Dict (Dict PyVal)) (rule resource : String) :
    Except PyErr (PyVal × List LogMsg) :=
  match dictFind? dr dstr with
  | some d =>
      match dictFind? d resource with
      | some v => .ok (v, [.usingDefault rule resource v])
      | none => .error .keyError
  | none => .error .keyError

/-- The value computation of `get_resource_value` (lines 46–59), which only
reads `self._default_str` (`dstr`), `self.defined_resources` (`dr`) and
`self.presets` (`pr`).  When the definition value is a non-numeric string,
`int(value)` raises `ValueError` and `self.presets[resource][value]` is
attempted: with `self.presets = None` this raises an uncaught `TypeError`;
with a dict it raises `KeyError` on a missing key, which the OUTER
`except KeyError` catches, diverting to the default fallback (the inner
`except ValueError` at lines 54–56, and hence the line 55 diagnostic, is
unreachable: dict lookups never raise `ValueError`). -/
def resolveCore (dstr : String) (dr : Dict (Dict PyVal)) (pr : Option (Dict (Dict PyVal)))
    (rule resource : String) : Except PyErr (PyVal × List LogMsg) :=
  match dictFind? dr rule with
  | none => fallbackCore dstr dr rule resource
  | some inner =>
      match dictFind? inner resource with
      | none => fallbackCore dstr dr rule resource
      | some value =>
          match value with
          | .vInt n => .ok (.vInt n, [])
          | .vNone => .error .typeError
          | .vStr s =>
              match pyInt? s with
              | some k => .ok (.vInt k, [])
              | none =>
                  match pr with
                  | none => .error .typeError
                  | some p =>
                      match dictFind? p resource with
                      | none => fallbackCore dstr dr rule resource
                      | some tbl =>
                          match dictFind? tbl s with
                          | none => fallbackCore dstr dr rule resource
                          | some pv => .ok (pv, [])

/-- `get_resource_value` (lines 41–60): the value computation of
lines 46–59 (`resolveCore`, which reads only `self._default_str`,
`self.defined_resources` and `self.presets`), followed by the single cache
write `self.resources[rule][resource] = value` of line 60; an exception
exits before the write, leaving the state unchanged.  The function body
has no `return` statement, so the Python call returns `None`
(`PyVal.vNone` in the result triple). -/
def get_resource_value (m : SnakemakeResourcesManager) (rule resource : String) :
    Except PyErr (SnakemakeResourcesManager × List LogMsg × PyVal) :=
  match resolveCore m.default_str m.defined_resources m.presets rule resource with
  | .ok (w, logs) => .ok (store m rule resource w, logs, .vNone)
  | .error e => .error e

/-- `allocate_resources` (lines 62–84).  Its first statement evaluates the
dict display at lines 67–69, whose first entry calls the bare name
`get_resource_value` — unbound as a local or global — so every call raises
`NameError` before any attribute is mutated (lines 70–84, including the
override application that also references the undefined names
`resources_info` and `presets`, are unreachable). -/
def allocate_resources (_m : SnakemakeResourcesManager) :
    Except PyErr SnakemakeResourcesManager :=
  .error .nameError

/-- `get_threads` (lines 86–94).  `self.resources` is a nested defaultdict,
so the subscript at line 91 never raises `KeyError`: the `except KeyError`
fallback at lines 92–93 is dead code, and a rule absent from the cache
yields the inner `defaultdict(int)` default `0` (inserting it). -/
def get_threads (m : SnakemakeResourcesManager) (rule : String) :
    SnakemakeResourcesManager × PyVal :=
  let (threads, res2) := ddRead m.resources rule m.threads_str
  ({ m with resources := res2 }, threads)

/-- `get_mem` (lines 96–112).  The defaultdict read at line 102 never
raises (dead `except KeyError` at lines 103–104).  Numeric values are
scaled by `mem_attempt_multiplier ** (attempt - 1)` and truncated by
`int(...)`; all-digit strings likewise after `int(mem_mb)`; a nonempty
non-digit string ending in `G`/`M`/`K` has its prefix converted by
`float(...)` (an unparseable prefix raises an uncaught `ValueError`),
scaled, and rendered back with the suffix re-appended; an empty string
reaches `mem_mb[-1]` and raises `IndexError`; any other string falls
through every branch and is returned unchanged. -/
def get_mem (m : SnakemakeResourcesManager) (rule : String) (attempt : ℤ) :
    SnakemakeResourcesManager × Except PyErr PyVal :=
  let (mem_mb, res2) := ddRead m.resources rule m.memory_str
  let m2 := { m with resources := res2 }
  match mem_mb with
  | .vNone => (m2, .error .attributeError)
  | .vInt n =>
      (m2, .ok (.vInt (pyTrunc ((n : ℚ) * m.mem_attempt_multiplier ^ (attempt - 1)))))
  | .vStr s =>
      if pyIsdigit s then
        (m2, .ok (.vInt (pyTrunc ((digitsVal s : ℚ) * m.mem_attempt_multiplier ^ (attempt - 1)))))
      else
        match s.data.getLast? with
        | none => (m2, .error .indexError)
        | some c =>
            if c = 'G' || c = 'M' || c = 'K' then
              match pyFloat? (String.mk s.data.dropLast) with
              | some q =>
                  (m2, .ok (.vStr (pyFloatStr (q * m.mem_attempt_multiplier ^ (attempt - 1))
                    ++ String.mk [c])))
              | none => (m2, .error .valueError)
            else (m2, .ok (.vStr s))

/-- `get_runtime` (lines 114–133).  The defaultdict read at line 120 never
raises (dead `except KeyError` at lines 121–122).  An `int` value is used
directly; a string is parsed by `parseRuntime`, any parse failure being
caught at line 129 with the diagnostic of line 130 and the fallback value
`3600`.  Line 132 then scales by the linear factor `1 + (attempt - 1) / 2`
(true division) and truncates with `int(...)`; the
`runtime_attempt_multiplier` attribute is never consulted.  For `int` and
`str` values no branch raises; a `None` value reaches
`re.split(':|-', None)` and raises `TypeError`. -/
def get_runtime (m : SnakemakeResourcesManager) (rule : String) (attempt : ℤ) :
    SnakemakeResourcesManager × Except PyErr (ℤ × List LogMsg) :=
  let (runtime, res2) := ddRead m.resources rule m.runtime_str
  let m2 := { m with resources := res2 }
  match runtime with
  | .vNone => (m2, .error .typeError)
  | .vInt n => (m2, .ok (pyTrunc ((n : ℚ) * (1 + ((attempt : ℚ) - 1) / 2)), []))
  | .vStr s =>
      match parseRuntime s with
      | some t => (m2, .ok (pyTrunc ((t : ℚ) * (1 + ((attempt : ℚ) - 1) / 2)), []))
      | none =>
          (m2, .ok (pyTrunc ((3600 : ℚ) * (1 + ((attempt : ℚ) - 1) / 2)),
            [.invalidRuntime rule s]))

/-- The resolved-cache entry for `(rule, res)`, read without the
defaultdict side effect (used to state cache preconditions). -/
def resolvedAt (m : SnakemakeResourcesManager) (rule res : String) : Option PyVal :=
  match dictFind? m.resources rule with
  | some inner => dictFind? inner res
  | none => none

end SnakemakeResourcesManager

open SnakemakeResourcesManager

/-- A manager constructed with every argument at its Python default:
`SnakemakeResourcesManager()`. -/
def freshMgr : SnakemakeResourcesManager :=
  init none none none (3 / 2) 1 "default" "threads" "mem_mb" "runtime_s"

/-- A default-constructed manager whose `resources` cache has been set to
`res` (used to realise cache preconditions in concrete instances). -/
def mkCached (res : DD) : SnakemakeResourcesManager :=
  { freshMgr with resources := res }

/-- A manager constructed as
`SnakemakeResourcesManager(resources={'r': {'threads': 'big'}}, presets={'threads': {'big': 8}})`:
the rule `r` uses the preset name `big` for `threads`, and a matching
preset table is supplied to the constructor. -/
def presetMgr : SnakemakeResourcesManager :=
  init (some [("r", [("threads", PyVal.vStr "big")])])
    (some [("threads", [("big", PyVal.vInt 8)])])
    none (3 / 2) 1 "default" "threads" "mem_mb" "runtime_s"

/-- A manager whose cache resolves `r`'s `threads` to `5`
(what `get_resource_value` stores for a definition `{'r': {'threads': 5}}`). -/
def cachedThreads5 : SnakemakeResourcesManager :=
  mkCached [("r", [("threads", PyVal.vInt 5)])]

/-- A manager built like `cachedThreads5` but from the definition side:
`SnakemakeResourcesManager(resources={'r': {'threads': 5}})`. -/
def definedThreads5 : SnakemakeResourcesManager :=
  init (some [("r", [("threads", PyVal.vInt 5)])]) none none
    (3 / 2) 1 "default" "threads" "mem_mb" "runtime_s"

/-! ## Basic lemmas about the dictionary model -/

theorem dictFind?_insert_self {α : Type} (d : Dict α) (k : String) (v : α) :
    dictFind? (dictInsert d k v) k = some v := by
  induction d with
  | nil => simp [dictInsert, dictFind?]
  | cons p rest ih =>
      by_cases h : p.1 = k
      · simp [dictInsert, dictFind?, h]
      · simp [dictInsert, dictFind?, h, ih]

theorem dictInsert_insert_same {α : Type} (d : Dict α) (k : String) (v w : α) :
    dictInsert (dictInsert d k v) k w = dictInsert d k w := by
  induction d with
  | nil => simp [dictInsert]
  | cons p rest ih =>
      by_cases h : p.1 = k
      · simp [dictInsert, h]
      · simp [dictInsert, h, ih]

theorem ddWrite_ddWrite (d : DD) (rule res : String) (v : PyVal) :
    ddWrite (ddWrite d rule res v) rule res v = ddWrite d rule res v := by
  unfold ddWrite
  rw [dictFind?_insert_self, dictInsert_insert_same]
  simp [dictInsert_insert_same]

theorem ddRead_resolved {d : DD} {rule res : String} {v : PyVal}
    (hr : (match dictFind? d rule with
           | some inner => dictFind? inner res
           | none => none) = some v) :
    ddRead d rule res = (v, d) := by
  unfold ddRead
  cases h1 : dictFind? d rule with
  | none => simp [h1] at hr
  | some inner =>
      simp only [h1] at hr ⊢
      cases h2 : dictFind? inner res with
      | none => simp [h2] at hr
      | some w => simp only [h2] at hr ⊢; simp_all

theorem ddRead_missing (d : DD) (rule res : String)
    (hr : (match dictFind? d rule with
           | some inner => dictFind? inner res
           | none => none) = none) :
    ∃ d2, ddRead d rule res = (PyVal.vInt 0, d2) := by
  unfold ddRead
  cases h1 : dictFind? d rule with
  | none => simp [h1]
  | some inner =>
      simp only [h1] at hr ⊢
      cases h2 : dictFind? inner res with
      | none => simp [h2]
      | some w => simp [h2] at hr

namespace SnakemakeResourcesManager

theorem store_store (m : SnakemakeResourcesManager) (rule res : String) (v : PyVal) :
    store (store m rule res v) rule res v = store m rule res v := by
  simp [store, ddWrite_ddWrite]

theorem resolvedAt_store (m : SnakemakeResourcesManager) (rule res : String) (v : PyVal) :
    resolvedAt (store m rule res v) rule res = some v := by
  simp [resolvedAt, store, ddWrite, dictFind?_insert_self]

end SnakemakeResourcesManager

/-! ## Lemmas about `pyTrunc` -/

theorem pyTrunc_intCast (n : ℤ) : pyTrunc (n : ℚ) = n := by
  unfold pyTrunc
  by_cases h : (n : ℚ) < 0 <;> simp [h]

theorem pyTrunc_zero : pyTrunc 0 = 0 := by
  simpa using pyTrunc_intCast 0

theorem pyTrunc_nonneg {q : ℚ} (h : 0 ≤ q) : pyTrunc q = ⌊q⌋ := by
  unfold pyTrunc
  simp [not_lt.2 h]

/-! ## Behaviour of the getter methods as a function of the cache -/

namespace SnakemakeResourcesManager

theorem get_threads_resolved {m : SnakemakeResourcesManager} {rule : String} {v : PyVal}
    (h : resolvedAt m rule m.threads_str = some v) :
    (get_threads m rule).2 = v := by
  have hdd : ddRead m.resources rule m.threads_str = (v, m.resources) :=
    ddRead_resolved (by simpa [resolvedAt] using h)
  simp [get_threads, hdd]

theorem get_threads_missing {m : SnakemakeResourcesManager} {rule : String}
    (h : resolvedAt m rule m.threads_str = none) :
    (get_threads m rule).2 = PyVal.vInt 0 := by
  obtain ⟨d2, hdd⟩ := ddRead_missing m.resources rule
    m.threads_str (by simpa [resolvedAt] using h)
  simp [get_threads, hdd]

theorem get_mem_int {m : SnakemakeResourcesManager} {rule : String} {n : ℤ} (a : ℤ)
    (h : resolvedAt m rule m.memory_str = some (.vInt n)) :
    (get_mem m rule a).2 =
      .ok (.vInt (pyTrunc ((n : ℚ) * m.mem_attempt_multiplier ^ (a - 1)))) := by
  have hdd : ddRead m.resources rule m.memory_str = (.vInt n, m.resources) :=
    ddRead_resolved (by simpa [resolvedAt] using h)
  simp [get_mem, hdd]

theorem get_mem_missing {m : SnakemakeResourcesManager} {rule : String} (a : ℤ)
    (h : resolvedAt m rule m.memory_str = none) :
    (get_mem m rule a).2 = .ok (.vInt 0) := by
  obtain ⟨d2, hdd⟩ := ddRead_missing m.resources rule
    m.memory_str (by simpa [resolvedAt] using h)
  simp [get_mem, hdd, pyTrunc_zero]

theorem get_mem_suffix {m : SnakemakeResourcesManager} {rule : String} {s : String}
    {c : Char} {q : ℚ} (a : ℤ)
    (h : resolvedAt m rule m.memory_str = some (.vStr s))
    (hdig : pyIsdigit s = false)
    (hlast : s.data.getLast? = some c)
    (hc : c = 'G' ∨ c = 'M' ∨ c = 'K')
    (hq : pyFloat? (String.mk s.data.dropLast) = some q) :
    (get_mem m rule a).2 =
      .ok (.vStr (pyFloatStr (q * m.mem_attempt_multiplier ^ (a - 1)) ++ String.mk [c])) := by
  have hdd : ddRead m.resources rule m.memory_str = (.vStr s, m.resources) :=
    ddRead_resolved (by simpa [resolvedAt] using h)
  have hc' : (c = 'G' || c = 'M' || c = 'K') = true := by
    rcases hc with h | h | h <;> simp [h]
  simp [get_mem, hdd, hdig, hlast, hc', hq]

theorem get_runtime_int {m : SnakemakeResourcesManager} {rule : String} {n : ℤ} (a : ℤ)
    (h : resolvedAt m rule m.runtime_str = some (.vInt n)) :
    (get_runtime m rule a).2 =
      .ok (pyTrunc ((n : ℚ) * (1 + ((a : ℚ) - 1) / 2)), []) := by
  have hdd : ddRead m.resources rule m.runtime_str = (.vInt n, m.resources) :=
    ddRead_resolved (by simpa [resolvedAt] using h)
  simp [get_runtime, hdd]

theorem get_runtime_str {m : SnakemakeResourcesManager} {rule : String} {s : String}
    {t : ℤ} (a : ℤ)
    (h : resolvedAt m rule m.runtime_str = some (.vStr s))
    (hp : parseRuntime s = some t) :
    (get_runtime m rule a).2 =
      .ok (pyTrunc ((t : ℚ) * (1 + ((a : ℚ) - 1) / 2)), []) := by
  have hdd : ddRead m.resources rule m.runtime_str = (.vStr s, m.resources) :=
    ddRead_resolved (by simpa [resolvedAt] using h)
  simp [get_runtime, hdd, hp]

theorem get_runtime_str_malformed {m : SnakemakeResourcesManager} {rule : String}
    {s : String} (a : ℤ)
    (h : resolvedAt m rule m.runtime_str = some (.vStr s))
    (hp : parseRuntime s = none) :
    (get_runtime m rule a).2 =
      .ok (pyTrunc ((3600 : ℚ) * (1 + ((a : ℚ) - 1) / 2)), [.invalidRuntime rule s]) := by
  have hdd : ddRead m.resources rule m.runtime_str = (.vStr s, m.resources) :=
    ddRead_resolved (by simpa [resolvedAt] using h)
  simp [get_runtime, hdd, hp]

theorem get_runtime_missing {m : SnakemakeResourcesManager} {rule : String} (a : ℤ)
    (h : resolvedAt m rule m.runtime_str = none) :
    (get_runtime m rule a).2 = .ok (0, []) := by
  obtain ⟨d2, hdd⟩ := ddRead_missing m.resources rule
    m.runtime_str (by simpa [resolvedAt] using h)
  simp [get_runtime, hdd, pyTrunc_zero]

end SnakemakeResourcesManager

/-! ## The claims -/

/-- C1: the claim states that for a rule absent from the resource
definitions (and never explicitly resolved), `get_threads`, `get_mem` at
attempt 1 and `get_runtime` at attempt 1 return the `default` entry's
values (1 thread, 2000 MB, 3600 s).  On a default-constructed manager the
`resources` cache is an empty nested `defaultdict(int)`, so each getter's
subscript returns the inner default `0` and the `except KeyError` fallback
to the `default` entry is dead code: all three getters return `0`, not the
default values — the code contradicts its own fallback handlers and its
`default_resources` class attribute. -/
theorem c1_unknown_rule_gets_zero_not_default (rule : String) :
    (get_threads freshMgr rule).2 = PyVal.vInt 0
    ∧ (get_mem freshMgr rule 1).2 = .ok (PyVal.vInt 0)
    ∧ (get_runtime freshMgr rule 1).2 = .ok (0, [])
    ∧ PyVal.vInt 0 ≠ PyVal.vInt SnakemakeResourcesManager.default_resources_threads
    ∧ (Except.ok (PyVal.vInt 0) : Except PyErr PyVal)
        ≠ .ok (PyVal.vInt SnakemakeResourcesManager.default_resources_mem_mb)
    ∧ (Except.ok ((0 : ℤ), ([] : List LogMsg)) : Except PyErr (ℤ × List LogMsg))
        ≠ .ok (SnakemakeResourcesManager.default_resources_runtime_s, []) :=
  ⟨SnakemakeResourcesManager.get_threads_missing rfl,
   SnakemakeResourcesManager.get_mem_missing 1 rfl,
   SnakemakeResourcesManager.get_runtime_missing 1 rfl,
   by decide, by decide, by decide⟩

/-- C2: the claim states that a non-numeric string definition value is
looked up as a preset name in the supplied presets mapping, with a
`ConfigurationError` signalled and a diagnostic logged when the preset is
absent.  In the code `__init__` discards the `presets` argument
(`self.presets = None`), so the lookup `self.presets[resource][value]`
raises an uncaught `TypeError` even when a matching preset table was
supplied — no preset is consulted, no diagnostic is printed (the
`except ValueError` guarding the line 55 message can never fire), and the
exception reaching the caller is a `TypeError`, not a configuration
error. -/
theorem c2_preset_lookup_raises_typeerror_unlogged :
    get_resource_value presetMgr "r" "threads" = .error .typeError
    ∧ presetMgr.presets = none
    ∧ dictFind? [("threads", [("big", PyVal.vInt 8)])] "threads"
        = some [("big", PyVal.vInt 8)] :=
  ⟨rfl, rfl, rfl⟩

/-- C3: the claim states that `allocate_resources` resolves every rule and
then applies the override triples, skipping invalid ones.  The method's
first statement evaluates the unbound bare name `get_resource_value`
(lines 67–69), so every call raises `NameError` before any resolution or
override application takes place; the override loop additionally
references the undefined names `resources_info` and `presets`. -/
theorem c3_allocate_resources_always_nameerror (m : SnakemakeResourcesManager) :
    allocate_resources m = .error .nameError :=
  rfl

/-- C4 (amended): `get_runtime` accepts a plain integer number of seconds
or a `D-HH:MM:SS` string in which the day component is REQUIRED (a
three-field `HH:MM:SS` string fails the four-way unpacking and falls back
to 3600 s); a well-formed string is parsed into total seconds before the
linear attempt scaling, and `"1-02:30:00"` parses to 95400 seconds. -/
theorem c4_runtime_parse_amended :
    (∀ (m : SnakemakeResourcesManager) (rule : String) (a n : ℤ),
        resolvedAt m rule m.runtime_str = some (.vInt n) →
        (get_runtime m rule a).2
          = .ok (pyTrunc ((n : ℚ) * (1 + ((a : ℚ) - 1) / 2)), []))
    ∧ (∀ (m : SnakemakeResourcesManager) (rule s : String) (a t : ℤ),
        resolvedAt m rule m.runtime_str = some (.vStr s) →
        parseRuntime s = some t →
        (get_runtime m rule a).2
          = .ok (pyTrunc ((t : ℚ) * (1 + ((a : ℚ) - 1) / 2)), []))
    ∧ parseRuntime "1-02:30:00" = some 95400
    ∧ parseRuntime "02:30:00" = none :=
  ⟨fun _ _ a _ h => SnakemakeResourcesManager.get_runtime_int a h,
   fun _ _ _ a _ h hp => SnakemakeResourcesManager.get_runtime_str a h hp,
   by decide, by decide⟩

/-- C4 witness: the amended theorem applied to a manager whose cached
runtime for rule `r` is the string `"1-02:30:00"`, at attempt 1. -/
theorem c4_witness :
    (get_runtime (mkCached [("r", [("runtime_s", PyVal.vStr "1-02:30:00")])]) "r" 1).2
      = .ok (pyTrunc (((95400 : ℤ) : ℚ) * (1 + ((1 : ℚ) - 1) / 2)), []) :=
  c4_runtime_parse_amended.2.1 (mkCached [("r", [("runtime_s", PyVal.vStr "1-02:30:00")])])
    "r" "1-02:30:00" 1 95400 (by decide) (by decide)

/-- C4 counterexample: the claim says the day component of the runtime
string is optional, but for the day-less string `"02:30:00"` (which under
an optional-day reading would mean `2*3600 + 30*60 = 9000` seconds)
`get_runtime` at attempt 1 returns the malformed-string fallback 3600 with
the invalid-format diagnostic. -/
theorem c4_counterexample :
    (get_runtime (mkCached [("r", [("runtime_s", PyVal.vStr "02:30:00")])]) "r" 1).2
      = .ok (3600, [.invalidRuntime "r" "02:30:00"])
    ∧ ((2 * 3600 + 30 * 60 : ℤ) = 9000)
    ∧ ((3600 : ℤ) ≠ 9000) := by
  refine ⟨?_, by decide, by decide⟩
  have hres : resolvedAt (mkCached [("r", [("runtime_s", PyVal.vStr "02:30:00")])]) "r"
      (mkCached [("r", [("runtime_s", PyVal.vStr "02:30:00")])]).runtime_str
      = some (.vStr "02:30:00") := by decide
  have h := SnakemakeResourcesManager.get_runtime_str_malformed 1 hres (by decide)
  rw [h]
  have e : ((3600 : ℚ) * (1 + (((1 : ℤ) : ℚ) - 1) / 2)) = ((3600 : ℤ) : ℚ) := by
    push_cast; norm_num
  rw [e, pyTrunc_intCast]

/-- C5: for a resolved runtime value that is a string not matching the
`D-HH:MM:SS` pattern, `get_runtime` logs the invalid-format diagnostic and
substitutes the fixed fallback 3600 s, returning 3600 at attempt 1; for
every attempt the call returns normally (`Except.ok`), never propagating
an exception. -/
theorem c5_malformed_runtime_fallback (m : SnakemakeResourcesManager) (rule s : String)
    (h : resolvedAt m rule m.runtime_str = some (.vStr s))
    (hp : parseRuntime s = none) :
    (get_runtime m rule 1).2 = .ok (3600, [.invalidRuntime rule s])
    ∧ ∀ a : ℤ, (get_runtime m rule a).2
        = .ok (pyTrunc ((3600 : ℚ) * (1 + ((a : ℚ) - 1) / 2)), [.invalidRuntime rule s]) := by
  constructor
  · have h1 := SnakemakeResourcesManager.get_runtime_str_malformed 1 h hp
    rw [h1]
    have e : ((3600 : ℚ) * (1 + (((1 : ℤ) : ℚ) - 1) / 2)) = ((3600 : ℤ) : ℚ) := by
      push_cast; norm_num
    rw [e, pyTrunc_intCast]
  · exact fun a => SnakemakeResourcesManager.get_runtime_str_malformed a h hp

/-- C5 witness: a manager whose cached runtime for rule `r` is the
malformed string `"bogus"` yields 3600 at attempt 1 with the diagnostic. -/
theorem c5_witness :
    (get_runtime (mkCached [("r", [("runtime_s", PyVal.vStr "bogus")])]) "r" 1).2
      = .ok (3600, [.invalidRuntime "r" "bogus"]) :=
  (c5_malformed_runtime_fallback (mkCached [("r", [("runtime_s", PyVal.vStr "bogus")])])
    "r" "bogus" (by decide) (by decide)).1

/-- C6 (amended): for a numeric resolved memory value, `get_mem` returns
the int-TRUNCATION (Python `int(...)`, toward zero — not `round`) of
`baseMemory * multiplier^(attempt-1)`, and attempt 1 returns the unscaled
base value exactly. -/
theorem c6_mem_scaling_amended (m : SnakemakeResourcesManager) (rule : String) (a n : ℤ)
    (h : resolvedAt m rule m.memory_str = some (.vInt n)) :
    (get_mem m rule a).2
      = .ok (.vInt (pyTrunc ((n : ℚ) * m.mem_attempt_multiplier ^ (a - 1))))
    ∧ (get_mem m rule 1).2 = .ok (.vInt n) := by
  refine ⟨SnakemakeResourcesManager.get_mem_int a h, ?_⟩
  have h1 := SnakemakeResourcesManager.get_mem_int 1 h
  rw [h1]
  norm_num [pyTrunc_intCast]

/-- C6 witness: the amended theorem applied to a manager whose cached
memory for rule `r` is 3 MB, at attempt 2. -/
theorem c6_witness :
    (get_mem (mkCached [("r", [("mem_mb", PyVal.vInt 3)])]) "r" 2).2
      = .ok (.vInt (pyTrunc (((3 : ℤ) : ℚ)
          * (mkCached [("r", [("mem_mb", PyVal.vInt 3)])]).mem_attempt_multiplier
            ^ ((2 : ℤ) - 1))))
    ∧ (get_mem (mkCached [("r", [("mem_mb", PyVal.vInt 3)])]) "r" 1).2
        = .ok (.vInt (3 : ℤ)) :=
  c6_mem_scaling_amended (mkCached [("r", [("mem_mb", PyVal.vInt 3)])]) "r" 2 3 (by decide)

/-- C6 counterexample: the claim says `get_mem` equals
`round(base * 1.5^(attempt-1))`; for base 3 MB at attempt 3 the scaled
value is `3 * 2.25 = 6.75`, the code's `int(...)` yields 6, and `round`
yields 7. -/
theorem c6_counterexample :
    (get_mem (mkCached [("r", [("mem_mb", PyVal.vInt 3)])]) "r" 3).2 = .ok (.vInt 6)
    ∧ round ((3 : ℚ) * (3 / 2 : ℚ) ^ ((3 : ℤ) - 1)) = 7
    ∧ (6 : ℤ) ≠ 7 := by
  refine ⟨?_, by rw [round_eq]; norm_num, by decide⟩
  have hres : resolvedAt (mkCached [("r", [("mem_mb", PyVal.vInt 3)])]) "r"
      (mkCached [("r", [("mem_mb", PyVal.vInt 3)])]).memory_str
      = some (.vInt 3) := by decide
  have h := SnakemakeResourcesManager.get_mem_int 3 hres
  rw [h]
  have e : (mkCached [("r", [("mem_mb", PyVal.vInt 3)])]).mem_attempt_multiplier = 3 / 2 := rfl
  rw [e]
  norm_num [pyTrunc]

/-- C7: for a resolved memory value that is a non-digit string ending in
`G`, `M`, or `K` whose prefix parses as a number, `get_mem` scales the
numeric portion by `multiplier^(attempt-1)` and re-appends the suffix,
returning a string; in particular the value `"4G"` at attempt 2 with
multiplier 1.5 yields `"6.0G"`. -/
theorem c7_suffixed_memory_scaling :
    (∀ (m : SnakemakeResourcesManager) (rule s : String) (c : Char) (q : ℚ) (a : ℤ),
        resolvedAt m rule m.memory_str = some (.vStr s) →
        pyIsdigit s = false →
        s.data.getLast? = some c →
        (c = 'G' ∨ c = 'M' ∨ c = 'K') →
        pyFloat? (String.mk s.data.dropLast) = some q →
        (get_mem m rule a).2
          = .ok (.vStr (pyFloatStr (q * m.mem_attempt_multiplier ^ (a - 1))
              ++ String.mk [c])))
    ∧ (get_mem (mkCached [("r", [("mem_mb", PyVal.vStr "4G")])]) "r" 2).2
        = .ok (.vStr "6.0G") := by
  constructor
  · exact fun m rule s c q a h h2 h3 h4 h5 =>
      SnakemakeResourcesManager.get_mem_suffix a h h2 h3 h4 h5
  · have hres : resolvedAt (mkCached [("r", [("mem_mb", PyVal.vStr "4G")])]) "r"
        (mkCached [("r", [("mem_mb", PyVal.vStr "4G")])]).memory_str
        = some (.vStr "4G") := by decide
    have hlast : "4G".data.getLast? = some 'G' := by decide
    have hq : pyFloat? (String.mk "4G".data.dropLast) = some 4 := by decide
    have h := SnakemakeResourcesManager.get_mem_suffix 2 hres (by decide) hlast
      (by decide) hq
    rw [h]
    have e1 : (mkCached [("r", [("mem_mb", PyVal.vStr "4G")])]).mem_attempt_multiplier
        = 3 / 2 := rfl
    rw [e1]
    have e2 : ((4 : ℚ) * (3 / 2 : ℚ) ^ ((2 : ℤ) - 1)) = 6 := by norm_num
    rw [e2]
    have e3 : pyFloatStr 6 = "6.0" := by
      have h2 : ((6 : ℚ) - ((⌊(6 : ℚ)⌋ : ℤ) : ℚ)) = 0 := by norm_num
      simp [pyFloatStr, ratDecimalStrNN, h2]
      decide
    rw [e3]
    decide

/-- C7 witness: the general part of the theorem applied to the `"4G"`
manager at attempt 2. -/
theorem c7_witness :
    (get_mem (mkCached [("r", [("mem_mb", PyVal.vStr "4G")])]) "r" 2).2
      = .ok (.vStr (pyFloatStr ((4 : ℚ)
          * (mkCached [("r", [("mem_mb", PyVal.vStr "4G")])]).mem_attempt_multiplier
            ^ ((2 : ℤ) - 1)) ++ String.mk ['G'])) :=
  c7_suffixed_memory_scaling.1 (mkCached [("r", [("mem_mb", PyVal.vStr "4G")])])
    "r" "4G" 'G' 4 2 (by decide) (by decide) (by decide) (by decide) (by decide)

/-- C8 (amended): `get_resource_value` is idempotent — a successful call
leaves the manager in a state on which an identical call reproduces the
same state, diagnostics and return value — and it stores the resolved
value in the cache but RETURNS `None` (the body has no `return`
statement), not the cached resolved value. -/
theorem c8_idempotent_amended (m : SnakemakeResourcesManager) (rule res : String)
    (m' : SnakemakeResourcesManager) (logs : List LogMsg) (v : PyVal)
    (h : get_resource_value m rule res = .ok (m', logs, v)) :
    get_resource_value m' rule res = .ok (m', logs, v) ∧ v = .vNone := by
  unfold get_resource_value at h ⊢
  cases hres : resolveCore m.default_str m.defined_resources m.presets rule res with
  | error e => rw [hres] at h; exact absurd h (by simp)
  | ok p =>
      obtain ⟨w, logs'⟩ := p
      rw [hres] at h
      simp only [Except.ok.injEq, Prod.mk.injEq] at h
      obtain ⟨hm, hl, hv⟩ := h
      subst hm; subst hl; subst hv
      have hsame : resolveCore (store m rule res w).default_str
          (store m rule res w).defined_resources (store m rule res w).presets rule res
          = resolveCore m.default_str m.defined_resources m.presets rule res := rfl
      rw [hsame, hres]
      simp [SnakemakeResourcesManager.store_store]

/-- C8 witness: the amended theorem applied to the state reached after one
successful resolution of `(r, threads)` on a manager defining
`{'r': {'threads': 5}}`. -/
theorem c8_witness :
    get_resource_value (store definedThreads5 "r" "threads" (.vInt 5)) "r" "threads"
      = .ok (store definedThreads5 "r" "threads" (.vInt 5), [], .vNone)
    ∧ (PyVal.vNone = PyVal.vNone) :=
  c8_idempotent_amended definedThreads5 "r" "threads"
    (store definedThreads5 "r" "threads" (.vInt 5)) [] .vNone rfl

/-- C8 counterexample: the claim says each call returns the cached
resolved value; resolving `(r, threads)` on a manager defining
`{'r': {'threads': 5}}` caches 5 but the call returns `None`. -/
theorem c8_counterexample :
    get_resource_value definedThreads5 "r" "threads"
      = .ok (store definedThreads5 "r" "threads" (.vInt 5), [], .vNone)
    ∧ resolvedAt (store definedThreads5 "r" "threads" (.vInt 5)) "r" "threads"
        = some (.vInt 5)
    ∧ PyVal.vNone ≠ PyVal.vInt 5 :=
  ⟨rfl, SnakemakeResourcesManager.resolvedAt_store definedThreads5 "r" "threads" (.vInt 5),
   by decide⟩

/-- C9 (amended): `__init__` binds `self.defined_resources` to the
caller's mapping object and treats it as read-only only when a `default`
entry is already present; when the `default` key is absent the default
entry is injected into the caller's mapping in place, so the caller's
object is mutated.  (The `presets` mapping is never stored at all, so it
is trivially left unchanged.) -/
theorem c9_init_mutation_amended (resources : Dict (Dict PyVal))
    (presets override : Option (Dict (Dict PyVal))) (mm rm : ℚ) (ds ts ms rs : String) :
    (dictContains resources ds = true →
      (init (some resources) presets override mm rm ds ts ms rs).defined_resources
        = resources)
    ∧ (dictContains resources ds = false →
      (init (some resources) presets override mm rm ds ts ms rs).defined_resources
        = dictInsert resources ds
            (dictInsert
              (dictInsert
                (dictInsert [] ts
                  (PyVal.vInt SnakemakeResourcesManager.default_resources_threads))
                ms (PyVal.vInt SnakemakeResourcesManager.default_resources_mem_mb))
              rs (PyVal.vInt SnakemakeResourcesManager.default_resources_runtime_s))) := by
  constructor
  · intro h; simp [init, h]
  · intro h; simp [init, h]

/-- C9 witness: the amended theorem applied to a mapping that already
contains a `default` entry (left unchanged) — first conjunct. -/
theorem c9_witness :
    (init (some [("default", [("threads", PyVal.vInt 7)])]) none none (3 / 2) 1
      "default" "threads" "mem_mb" "runtime_s").defined_resources
      = [("default", [("threads", PyVal.vInt 7)])] :=
  (c9_init_mutation_amended [("default", [("threads", PyVal.vInt 7)])] none none
    (3 / 2) 1 "default" "threads" "mem_mb" "runtime_s").1 (by decide)

/-- C9 counterexample: the claim says the caller-supplied mapping is
unchanged after construction even when it lacks a `default` key; passing
the empty mapping, the aliased object afterwards contains the injected
`default` entry and is no longer empty. -/
theorem c9_counterexample :
    (init (some []) none none (3 / 2) 1 "default" "threads" "mem_mb"
        "runtime_s").defined_resources
      = [("default", [("threads", PyVal.vInt 1), ("mem_mb", PyVal.vInt 2000),
          ("runtime_s", PyVal.vInt 3600)])]
    ∧ (init (some []) none none (3 / 2) 1 "default" "threads" "mem_mb"
        "runtime_s").defined_resources
      ≠ ([] : Dict (Dict PyVal)) :=
  ⟨by decide, by decide⟩

/-- C10: for every combination of constructor arguments, the `presets`
attribute is `None` after `__init__`, and the constructed state — hence
the behaviour of every later operation — is independent of the `presets`
argument supplied. -/
theorem c10_presets_never_stored (resources p1 p2 override : Option (Dict (Dict PyVal)))
    (mm rm : ℚ) (ds ts ms rs : String) :
    (init resources p1 override mm rm ds ts ms rs).presets = none
    ∧ init resources p1 override mm rm ds ts ms rs
        = init resources p2 override mm rm ds ts ms rs :=
  ⟨rfl, rfl⟩

end Anguis
